import Mathlib

/-!
Verification of the squat-analysis core of `utils.py` (class `PoseAnalyzer`).

Two parts are embedded:

* `calculate_angle` — the law-of-cosines angle at a vertex, modelled over
  the reals.  In the source the computation runs on numpy floats; a
  division `0/0` there produces a quiet NaN (numpy emits a warning, not an
  exception, so the `except` fallback is never reached).  We model the
  NaN-producing path (zero-length vector, hence a zero denominator) as
  `none`, and every well-defined result as `some θ`.
* `detect_squat` / `reset_counter` — the repetition state machine, modelled
  over the rationals with explicit state passing.  The stage is kept as a
  `String` exactly as in the source ("up" / "down").  `detect_squat` takes
  an `Option ℚ` input: `some θ` is a frame whose average knee angle was
  computed, `none` is a frame on which landmark extraction raised, sending
  the source into its `except` branch.
-/

/-- Difference of two 2-D points, `p - q` componentwise (numpy `a - b`). -/
def vsub (p q : ℝ × ℝ) : ℝ × ℝ := (p.1 - q.1, p.2 - q.2)

/-- Dot product of two 2-D vectors (numpy `np.dot`). -/
def dotp (u v : ℝ × ℝ) : ℝ := u.1 * v.1 + u.2 * v.2

/-- Euclidean norm of a 2-D vector (numpy `np.linalg.norm`). -/
noncomputable def vnorm (v : ℝ × ℝ) : ℝ := Real.sqrt (v.1 ^ 2 + v.2 ^ 2)

/-- Embeds `PoseAnalyzer.calculate_angle(point1, point2, point3)` from
`src/utils.py` lines 33–66.  Vectors `ba = a - b`, `bc = c - b`;
`cos = ba·bc / (‖ba‖‖bc‖)`, clipped to `[-1, 1]`; result
`degrees(arccos cos)`.  A zero denominator makes numpy produce NaN
(quietly — the `except` branch is not taken), which `clip`, `arccos` and
`degrees` all propagate; that outcome is `none` here. -/
noncomputable def calculate_angle (point1 point2 point3 : ℝ × ℝ) : Option ℝ :=
  let ba := vsub point1 point2
  let bc := vsub point3 point2
  if vnorm ba * vnorm bc = 0 then
    none
  else
    some (Real.arccos (min 1 (max (-1) (dotp ba bc / (vnorm ba * vnorm bc)))) * 180 / Real.pi)

/-- The mutable squat-tracking fields of `PoseAnalyzer` (`__init__`,
lines 26–30 of `src/utils.py`). -/
structure PoseState where
  squat_stage : String
  squat_count : ℕ
  last_angle : ℚ
  feedback_message : String
  accuracy_score : ℤ
deriving Repr, DecidableEq

/-- The analyzer's initial state (`__init__`). -/
def initialState : PoseState :=
  { squat_stage := "up"
    squat_count := 0
    last_angle := 180
    feedback_message := "Ready to start!"
    accuracy_score := 0 }

/-- The dict returned by `detect_squat` (lines 130–136 / 139–145). -/
structure Snapshot where
  count : ℕ
  stage : String
  angle : ℚ
  feedback : String
  accuracy : ℤ
deriving Repr, DecidableEq

/-- Python `round(x, 1)` on the displayed angle (ties differ from
Python's bankers rounding, which no property here depends on). -/
def roundTenth (q : ℚ) : ℚ := ((round (q * 10) : ℤ) : ℚ) / 10

/-- Lines 102–123 of `src/utils.py`: store the average angle and apply
the hysteresis transition (the `if avg_knee_angle > 160 / < 90 /
90 <= .. <= 160` chain). -/
def squatTransition (s : PoseState) (θ : ℚ) : PoseState :=
  let s := { s with last_angle := θ }
  if θ > 160 then
    if s.squat_stage = "down" then
      { s with squat_count := s.squat_count + 1
               feedback_message := "Great squat! 💪"
               accuracy_score := min 100 (s.accuracy_score + 10)
               squat_stage := "up" }
    else
      { s with squat_stage := "up" }
  else if θ < 90 then
    if s.squat_stage = "up" then
      { s with feedback_message := "Perfect depth! Now stand up!"
               accuracy_score := min 100 (s.accuracy_score + 5)
               squat_stage := "down" }
    else
      { s with squat_stage := "down" }
  else
    if s.squat_stage = "up" ∧ θ < 140 then
      { s with feedback_message := "Keep going down! 🔽" }
    else if s.squat_stage = "down" ∧ θ > 120 then
      { s with feedback_message := "Push up! 🔼" }
    else
      s

/-- Lines 126–128 of `src/utils.py`: the form check run after the
transition chain (`if avg_knee_angle > 140 and self.squat_stage == "down"`). -/
def formCheck (s : PoseState) (θ : ℚ) : PoseState :=
  if θ > 140 ∧ s.squat_stage = "down" then
    { s with feedback_message := "Squat deeper for better results! 📉"
             accuracy_score := max 0 (s.accuracy_score - 1) }
  else
    s

/-- The state mutation performed by a successful `detect_squat` call,
given the already-computed average knee angle. -/
def detectSquatAngle (s : PoseState) (θ : ℚ) : PoseState :=
  formCheck (squatTransition s θ) θ

/-- The dict built on the success path (lines 130–136). -/
def successSnapshot (s : PoseState) (θ : ℚ) : Snapshot :=
  { count := s.squat_count
    stage := s.squat_stage
    angle := roundTenth θ
    feedback := s.feedback_message
    accuracy := min 100 (max 0 s.accuracy_score) }

/-- The dict built on the exception path (lines 139–145), when landmark
extraction failed for the frame. -/
def failureSnapshot (s : PoseState) : Snapshot :=
  { count := s.squat_count
    stage := s.squat_stage
    angle := 180
    feedback := "Position yourself in camera view"
    accuracy := 0 }

/-- Embeds `PoseAnalyzer.detect_squat` (lines 68–145): `some θ` is a frame whose
landmarks were extracted and whose average knee angle is `θ`; `none` is a
frame on which extraction raised and the `except` branch runs, leaving the
state untouched.  Returns the new state and the returned dict. -/
def detect_squat (s : PoseState) (input : Option ℚ) : PoseState × Snapshot :=
  match input with
  | some θ =>
      let s' := detectSquatAngle s θ
      (s', successSnapshot s' θ)
  | none => (s, failureSnapshot s)

/-- Embeds `PoseAnalyzer.reset_counter` (lines 213–218). -/
def reset_counter (s : PoseState) : PoseState :=
  { s with squat_count := 0
           squat_stage := "up"
           accuracy_score := 0
           feedback_message := "Ready to start!" }

/-- Run `detect_squat` over a stream of frames, collecting the returned
dicts. -/
def runDetect (s : PoseState) : List (Option ℚ) → List Snapshot
  | [] => []
  | i :: is =>
      let p := detect_squat s i
      p.2 :: runDetect p.1 is

/-- A state whose stage is "down", used as a concrete test state. -/
def downState : PoseState := { initialState with squat_stage := "down" }

/-- Per-call bound on the accuracy reported in the returned dict: the
success path clamps with `min(100, max(0, ...))`, the failure path
reports `0`. -/
theorem detect_squat_accuracy_bounded (s : PoseState) (i : Option ℚ) :
    0 ≤ (detect_squat s i).2.accuracy ∧ (detect_squat s i).2.accuracy ≤ 100 := by
  cases i with
  | none => simp [detect_squat, failureSnapshot]
  | some θ =>
      simp only [detect_squat, successSnapshot]
      constructor
      · exact le_min (by norm_num) (le_max_left 0 _)
      · exact min_le_left 100 _

/-- Claim C2: from the initial state, the average-angle sequence
170, 150, 100, 80, 100, 150, 170 fed to `detect_squat` yields a
repetition count of exactly 1. -/
theorem single_rep_counted_once :
    (([some 170, some 150, some 100, some 80, some 100, some 150, some 170] :
        List (Option ℚ)).foldl (fun s i => (detect_squat s i).1)
        initialState).squat_count = 1 := by decide

/-- Claim C3: with an average angle strictly above 160, a state in stage
"down" completes a repetition — count up by one, positive completion
feedback, accuracy up by 10 capped at 100, stage set to "up" — while a
state already in stage "up" keeps its count and accuracy and stays "up". -/
theorem up_branch_transition (s : PoseState) (θ : ℚ) (h : θ > 160) :
    (s.squat_stage = "down" →
      (detectSquatAngle s θ).squat_count = s.squat_count + 1 ∧
      (detectSquatAngle s θ).feedback_message = "Great squat! 💪" ∧
      (detectSquatAngle s θ).accuracy_score = min 100 (s.accuracy_score + 10) ∧
      (detectSquatAngle s θ).squat_stage = "up") ∧
    (s.squat_stage = "up" →
      (detectSquatAngle s θ).squat_count = s.squat_count ∧
      (detectSquatAngle s θ).accuracy_score = s.accuracy_score ∧
      (detectSquatAngle s θ).squat_stage = "up") := by
  constructor <;> intro hst <;>
    simp [detectSquatAngle, squatTransition, formCheck, hst, h]

/-- Witness for `up_branch_transition` at `downState` and angle 170. -/
theorem up_branch_transition_witness :
    (170 : ℚ) > 160 ∧
    ((downState.squat_stage = "down" →
      (detectSquatAngle downState 170).squat_count = downState.squat_count + 1 ∧
      (detectSquatAngle downState 170).feedback_message = "Great squat! 💪" ∧
      (detectSquatAngle downState 170).accuracy_score =
        min 100 (downState.accuracy_score + 10) ∧
      (detectSquatAngle downState 170).squat_stage = "up") ∧
    (downState.squat_stage = "up" →
      (detectSquatAngle downState 170).squat_count = downState.squat_count ∧
      (detectSquatAngle downState 170).accuracy_score = downState.accuracy_score ∧
      (detectSquatAngle downState 170).squat_stage = "up")) :=
  ⟨by norm_num, up_branch_transition downState 170 (by norm_num)⟩

/-- Claim C4: at an average angle of exactly 160 the "up" branch is not
taken (`> 160` is strict) and at exactly 90 the "down" branch is not
taken (`< 90` is strict): both fall in the transition zone, so neither
the count nor the stage changes. -/
theorem boundary_exactness (s : PoseState) :
    (detectSquatAngle s 160).squat_count = s.squat_count ∧
    (detectSquatAngle s 160).squat_stage = s.squat_stage ∧
    (detectSquatAngle s 90).squat_count = s.squat_count ∧
    (detectSquatAngle s 90).squat_stage = s.squat_stage := by
  refine ⟨?_, ?_, ?_, ?_⟩ <;>
    · simp only [detectSquatAngle, squatTransition, formCheck]
      norm_num
      split_ifs <;> simp

/-- Claim C5: when the average angle is above 140 and the stage after the
transition chain is "down", the trailing form check overwrites the
feedback with the "squat deeper" message and decrements the accuracy
(floored at 0); the form check itself never changes stage or count. -/
theorem form_check_override (s : PoseState) (θ : ℚ)
    (h140 : θ > 140) (hdown : (squatTransition s θ).squat_stage = "down") :
    detectSquatAngle s θ =
      { squatTransition s θ with
          feedback_message := "Squat deeper for better results! 📉"
          accuracy_score := max 0 ((squatTransition s θ).accuracy_score - 1) } ∧
    (detectSquatAngle s θ).squat_stage = (squatTransition s θ).squat_stage ∧
    (detectSquatAngle s θ).squat_count = (squatTransition s θ).squat_count ∧
    (∀ s' θ', (formCheck s' θ').squat_stage = s'.squat_stage ∧
              (formCheck s' θ').squat_count = s'.squat_count) := by
  refine ⟨?_, ?_, ?_, ?_⟩
  · simp [detectSquatAngle, formCheck, h140, hdown]
  · simp [detectSquatAngle, formCheck, h140, hdown]
  · simp [detectSquatAngle, formCheck, h140, hdown]
  · intro s' θ'
    unfold formCheck
    split_ifs <;> simp

/-- Witness for `form_check_override` at `downState` and angle 150. -/
theorem form_check_override_witness :
    (150 : ℚ) > 140 ∧ (squatTransition downState 150).squat_stage = "down" ∧
    (detectSquatAngle downState 150 =
      { squatTransition downState 150 with
          feedback_message := "Squat deeper for better results! 📉"
          accuracy_score := max 0 ((squatTransition downState 150).accuracy_score - 1) } ∧
    (detectSquatAngle downState 150).squat_stage =
      (squatTransition downState 150).squat_stage ∧
    (detectSquatAngle downState 150).squat_count =
      (squatTransition downState 150).squat_count ∧
    (∀ s' θ', (formCheck s' θ').squat_stage = s'.squat_stage ∧
              (formCheck s' θ').squat_count = s'.squat_count)) :=
  ⟨by norm_num, by decide,
   form_check_override downState 150 (by norm_num) (by decide)⟩

/-- Claim C6: on a frame whose landmark extraction failed, `detect_squat`
returns the state unchanged together with a dict carrying the last-known
count and stage, the reposition message, a neutral angle of 180, and an
accuracy of 0 for that frame only. -/
theorem missing_landmarks_frame (s : PoseState) :
    detect_squat s none =
      (s, { count := s.squat_count
            stage := s.squat_stage
            angle := 180
            feedback := "Position yourself in camera view"
            accuracy := 0 }) := rfl

/-- Every dict returned over any input stream, from any start state,
reports an accuracy in [0, 100]. -/
theorem runDetect_accuracy_bounded (inputs : List (Option ℚ)) (s : PoseState)
    (snap : Snapshot) (h : snap ∈ runDetect s inputs) :
    0 ≤ snap.accuracy ∧ snap.accuracy ≤ 100 := by
  induction inputs generalizing s snap with
  | nil => simp [runDetect] at h
  | cons i is ih =>
      revert h
      simp only [runDetect, List.mem_cons]
      rintro (rfl | h)
      · exact detect_squat_accuracy_bounded s i
      · exact ih _ _ h

/-- Claim C7: every dict returned over any input stream from the initial
state reports an accuracy in [0, 100]. -/
theorem accuracy_bounds (inputs : List (Option ℚ)) (snap : Snapshot)
    (h : snap ∈ runDetect initialState inputs) :
    0 ≤ snap.accuracy ∧ snap.accuracy ≤ 100 :=
  runDetect_accuracy_bounded inputs initialState snap h

/-- Witness for `accuracy_bounds` on the one-frame stream of angle 170. -/
theorem accuracy_bounds_witness :
    (detect_squat initialState (some 170)).2 ∈
      runDetect initialState [some 170] ∧
    (0 ≤ (detect_squat initialState (some 170)).2.accuracy ∧
      (detect_squat initialState (some 170)).2.accuracy ≤ 100) :=
  ⟨List.mem_cons_self _ _,
   accuracy_bounds [some 170] (detect_squat initialState (some 170)).2
    (List.mem_cons_self _ _)⟩

/-- Claim C8: after any sequence of `detect_squat` calls from the initial
state, `reset_counter` yields count 0, stage "up", accuracy 0 and the
"Ready to start!" feedback, and a second reset changes nothing. -/
theorem reset_after_updates (inputs : List (Option ℚ)) :
    (reset_counter
      (inputs.foldl (fun t i => (detect_squat t i).1) initialState)).squat_count = 0 ∧
    (reset_counter
      (inputs.foldl (fun t i => (detect_squat t i).1) initialState)).squat_stage = "up" ∧
    (reset_counter
      (inputs.foldl (fun t i => (detect_squat t i).1) initialState)).accuracy_score = 0 ∧
    (reset_counter
      (inputs.foldl (fun t i => (detect_squat t i).1)
        initialState)).feedback_message = "Ready to start!" ∧
    ∀ s : PoseState, reset_counter (reset_counter s) = reset_counter s := by
  refine ⟨rfl, rfl, rfl, rfl, fun s => rfl⟩

/-- Claim C10: `reset_counter` does not touch `last_angle`; it starts at
180 and a successful `detect_squat` call sets it to the frame's average
angle, so it survives a reset. -/
theorem reset_preserves_last_angle (s : PoseState) (θ : ℚ) :
    (reset_counter s).last_angle = s.last_angle ∧
    initialState.last_angle = 180 ∧
    (detectSquatAngle s θ).last_angle = θ := by
  refine ⟨rfl, rfl, ?_⟩
  simp only [detectSquatAngle, squatTransition, formCheck]
  split_ifs <;> simp

/-- Claim C1: with the first point equal to the vertex the denominator
`‖ba‖‖bc‖` is zero, and the numpy division produces NaN (modelled `none`)
rather than the documented fallback of 180 — the `except` branch never
runs because numpy only warns on `0/0`. -/
theorem degenerate_input_yields_nan :
    calculate_angle (0, 0) (0, 0) (1, 0) = none := by
  simp [calculate_angle, vsub, vnorm]

/-- Norm of the vector from `b = a + t ⬝ (c - a)` back to `a`. -/
theorem vnorm_back_to_a (a c : ℝ × ℝ) (t : ℝ) (ht0 : 0 ≤ t) :
    vnorm (vsub a (a.1 + t * (c.1 - a.1), a.2 + t * (c.2 - a.2))) =
      t * Real.sqrt ((c.1 - a.1) ^ 2 + (c.2 - a.2) ^ 2) := by
  unfold vnorm vsub
  have h : (a.1 - (a.1 + t * (c.1 - a.1))) ^ 2 + (a.2 - (a.2 + t * (c.2 - a.2))) ^ 2 =
      t ^ 2 * ((c.1 - a.1) ^ 2 + (c.2 - a.2) ^ 2) := by ring
  rw [h, Real.sqrt_mul (sq_nonneg t), Real.sqrt_sq ht0]

/-- Norm of the vector from `b = a + t ⬝ (c - a)` forward to `c`. -/
theorem vnorm_on_to_c (a c : ℝ × ℝ) (t : ℝ) (ht1 : t ≤ 1) :
    vnorm (vsub c (a.1 + t * (c.1 - a.1), a.2 + t * (c.2 - a.2))) =
      (1 - t) * Real.sqrt ((c.1 - a.1) ^ 2 + (c.2 - a.2) ^ 2) := by
  unfold vnorm vsub
  have h : (c.1 - (a.1 + t * (c.1 - a.1))) ^ 2 + (c.2 - (a.2 + t * (c.2 - a.2))) ^ 2 =
      (1 - t) ^ 2 * ((c.1 - a.1) ^ 2 + (c.2 - a.2) ^ 2) := by ring
  rw [h, Real.sqrt_mul (sq_nonneg (1 - t)), Real.sqrt_sq (by linarith)]

/-- Claim C9: the right-angle configuration yields 90; any configuration
with the vertex strictly between two distinct endpoints yields 180; and
every defined result of `calculate_angle` lies in [0, 180]. -/
theorem angle_correctness (a c : ℝ × ℝ) (t : ℝ)
    (hac : a ≠ c) (ht0 : 0 < t) (ht1 : t < 1) :
    calculate_angle (1, 0) (0, 0) (0, 1) = some 90 ∧
    calculate_angle a (a.1 + t * (c.1 - a.1), a.2 + t * (c.2 - a.2)) c = some 180 ∧
    (∀ p q r : ℝ × ℝ, ∀ θ : ℝ, calculate_angle p q r = some θ →
      0 ≤ θ ∧ θ ≤ 180) := by
  refine ⟨?_, ?_, ?_⟩
  · simp only [calculate_angle, vsub, dotp, vnorm]
    norm_num [Real.sqrt_one, Real.arccos_zero]
    field_simp
    ring
  · have hd : 0 < (c.1 - a.1) ^ 2 + (c.2 - a.2) ^ 2 := by
      by_contra h
      push_neg at h
      have hx : c.1 - a.1 = 0 := by
        nlinarith [sq_nonneg (c.1 - a.1), sq_nonneg (c.2 - a.2)]
      have hy : c.2 - a.2 = 0 := by
        nlinarith [sq_nonneg (c.1 - a.1), sq_nonneg (c.2 - a.2)]
      exact hac (Prod.ext_iff.mpr ⟨by linarith, by linarith⟩)
    have hs : 0 < Real.sqrt ((c.1 - a.1) ^ 2 + (c.2 - a.2) ^ 2) := Real.sqrt_pos.mpr hd
    have h1t : 0 < 1 - t := by linarith
    have hdot : dotp (vsub a (a.1 + t * (c.1 - a.1), a.2 + t * (c.2 - a.2)))
        (vsub c (a.1 + t * (c.1 - a.1), a.2 + t * (c.2 - a.2))) =
        -(t * (1 - t) * ((c.1 - a.1) ^ 2 + (c.2 - a.2) ^ 2)) := by
      unfold dotp vsub
      ring
    have hden : t * Real.sqrt ((c.1 - a.1) ^ 2 + (c.2 - a.2) ^ 2) *
        ((1 - t) * Real.sqrt ((c.1 - a.1) ^ 2 + (c.2 - a.2) ^ 2)) =
        t * (1 - t) * ((c.1 - a.1) ^ 2 + (c.2 - a.2) ^ 2) := by
      have hss := Real.mul_self_sqrt hd.le
      linear_combination (t * (1 - t)) * hss
    have hpos : 0 < t * (1 - t) * ((c.1 - a.1) ^ 2 + (c.2 - a.2) ^ 2) :=
      mul_pos (mul_pos ht0 h1t) hd
    simp only [calculate_angle]
    rw [vnorm_back_to_a a c t ht0.le, vnorm_on_to_c a c t ht1.le, hdot, hden,
      if_neg hpos.ne']
    rw [neg_div, div_self hpos.ne']
    have hclamp : min 1 (max (-1) (-1 : ℝ)) = -1 := by norm_num
    rw [hclamp, Real.arccos_neg_one]
    rw [mul_comm, mul_div_assoc, div_self Real.pi_ne_zero, mul_one]
  · intro p q r θ h
    simp only [calculate_angle] at h
    by_cases hz : vnorm (vsub p q) * vnorm (vsub r q) = 0
    · rw [if_pos hz] at h
      exact absurd h (by simp)
    · rw [if_neg hz] at h
      have hθ : Real.arccos (min 1 (max (-1)
          (dotp (vsub p q) (vsub r q) / (vnorm (vsub p q) * vnorm (vsub r q))))) *
          180 / Real.pi = θ := Option.some.inj h
      constructor
      · rw [← hθ]
        exact div_nonneg (mul_nonneg (Real.arccos_nonneg _) (by norm_num))
          Real.pi_pos.le
      · rw [← hθ]
        calc Real.arccos (min 1 (max (-1)
              (dotp (vsub p q) (vsub r q) /
                (vnorm (vsub p q) * vnorm (vsub r q))))) * 180 / Real.pi ≤
            Real.pi * 180 / Real.pi := by
              apply div_le_div_of_nonneg_right ?_ Real.pi_pos.le
              exact mul_le_mul_of_nonneg_right (Real.arccos_le_pi _) (by norm_num)
          _ = 180 := by
              rw [mul_comm, mul_div_assoc, div_self Real.pi_ne_zero, mul_one]

/-- Witness for `angle_correctness` with endpoints (0,0), (1,0) and the
midpoint as vertex. -/
theorem angle_correctness_witness :
    ((0, 0) : ℝ × ℝ) ≠ (1, 0) ∧ (0 : ℝ) < 1 / 2 ∧ (1 / 2 : ℝ) < 1 ∧
    (calculate_angle (1, 0) (0, 0) (0, 1) = some 90 ∧
     calculate_angle (0, 0)
       (((0, 0) : ℝ × ℝ).1 + 1 / 2 * ((((1, 0) : ℝ × ℝ)).1 - ((0, 0) : ℝ × ℝ).1),
        ((0, 0) : ℝ × ℝ).2 + 1 / 2 * ((((1, 0) : ℝ × ℝ)).2 - ((0, 0) : ℝ × ℝ).2))
       (1, 0) = some 180 ∧
     (∀ p q r : ℝ × ℝ, ∀ θ : ℝ, calculate_angle p q r = some θ →
       0 ≤ θ ∧ θ ≤ 180)) :=
  ⟨by norm_num [Prod.ext_iff], by norm_num, by norm_num,
   angle_correctness (0, 0) (1, 0) (1 / 2) (by norm_num [Prod.ext_iff])
     (by norm_num) (by norm_num)⟩
